import Mathlib

/-!
Shallow embedding of the task-tracking application core
(app/models.py, app/utils.py, app/tasks.py) and proofs about it.

Conventions of the embedding:
* UTC instants are integers (seconds since the Unix epoch); calendar
  dates are integers (days since the Unix epoch).  Python date and
  datetime arithmetic is floor-based, which matches Int division and
  Int modulo here (both Euclidean, with a positive divisor).
* A timezone is modelled as a fixed UTC offset in seconds; the pytz
  zone database is modelled as a partial lookup from zone names to
  offsets, since pytz.timezone raises UnknownTimeZoneError on names
  outside its database.
* Python runtime errors that the embedded code can raise
  (ZeroDivisionError in Task.is_at_risk, UnknownTimeZoneError in
  pytz.timezone) are modelled with Except String.
* The current time datetime.utcnow() is passed explicitly as a
  parameter named now (or today for dates).
* Exact rational arithmetic stands in for Python floats.
-/

namespace TaskApp

/-- Seconds in one calendar day. -/
def secondsPerDay : Int := 86400

/-! ## User streak state (app/models.py, class User) -/

/-- The gamification fields of the User model read or written by
User.update_streak.  last_activity_date is a calendar day (days since
epoch), none when the user has no recorded activity (SQL NULL). -/
structure UserStreak where
  current_streak : Int
  longest_streak : Int
  last_activity_date : Option Int
  streak_freeze_count : Int
deriving DecidableEq, Repr

/-- User.update_streak (app/models.py lines 46-77), with
datetime.utcnow().date() passed explicitly as today.  Python truthiness
of last_activity_date (None is falsy) is the none case of the match. -/
def update_streak (today : Int) (u : UserStreak) (task_completed_today : Bool) : UserStreak :=
  if u.last_activity_date = some today then
    u
  else
    let yesterday := today - 1
    if task_completed_today then
      let cs := if u.last_activity_date = some yesterday then u.current_streak + 1 else 1
      let ls := if cs > u.longest_streak then cs else u.longest_streak
      { u with current_streak := cs, longest_streak := ls, last_activity_date := some today }
    else
      match u.last_activity_date with
      | none => u
      | some d =>
          if d < yesterday then
            if u.streak_freeze_count > 0 then
              { u with streak_freeze_count := u.streak_freeze_count - 1 }
            else
              { u with current_streak := 0 }
          else u

/-- A user whose last activity was three days before day 0 and who
still holds two streak-freeze tokens. -/
def staleUser : UserStreak where
  current_streak := 5
  longest_streak := 5
  last_activity_date := some (-3)
  streak_freeze_count := 2

lemma update_streak_noop_of_today (today : Int) (u : UserStreak) (b : Bool)
    (h : u.last_activity_date = some today) : update_streak today u b = u := by
  unfold update_streak
  simp [h]

lemma update_streak_true_last (today : Int) (u : UserStreak) :
    (update_streak today u true).last_activity_date = some today := by
  unfold update_streak
  by_cases h : u.last_activity_date = some today
  · simp [h]
  · simp [h]

/-- C1 counterexample: update_streak is not idempotent per UTC calendar
day when the completion-evidence flag is false.  For a user whose last
activity is three days old and who holds two freeze tokens, a second
same-day call consumes a second freeze token, so the state after two
calls differs from the state after one. -/
theorem update_streak_second_call_changes_state :
    update_streak 0 (update_streak 0 staleUser false) false ≠
      update_streak 0 staleUser false := by
  decide

/-- C1 (amended): the streak update is idempotent per UTC calendar day
once completion evidence has been recorded: after a call with
task_completed_today = true, any further call on the same UTC calendar
day (with either flag value) leaves current_streak, longest_streak,
last_activity_date and streak_freeze_count all unchanged, because the
first call sets last_activity_date to today. -/
theorem update_streak_idempotent_after_completion (today : Int) (u : UserStreak) (b : Bool) :
    update_streak today (update_streak today u true) b = update_streak today u true :=
  update_streak_noop_of_today today _ b (update_streak_true_last today u)

/-! ## Task model and status resolver (app/models.py class Task, app/utils.py) -/

/-- The fields of the Task model read or written by the status
resolver and the task routes.  Instants are UTC epoch seconds. -/
structure TaskRec where
  created_at : Int
  deadline : Int
  completed_at : Option Int
  status : String
  completion_quality : Option String
deriving DecidableEq, Repr

/-- Task.is_completed (app/models.py lines 124-126). -/
def is_completed (t : TaskRec) : Bool :=
  t.completed_at.isSome

/-- Task.is_overdue (app/models.py lines 128-132), with
datetime.utcnow() passed explicitly. -/
def is_overdue (now : Int) (t : TaskRec) : Bool :=
  if is_completed t then false else decide (now > t.deadline)

/-- Task.is_at_risk (app/models.py lines 134-142).  The unconditional
float division remaining_time / total_time raises ZeroDivisionError in
Python when total_time is 0, modelled by the error branch. -/
def is_at_risk (now : Int) (t : TaskRec) : Except String Bool :=
  if is_completed t || is_overdue now t then .ok false
  else
    let total : ℚ := ((t.deadline - t.created_at : Int) : ℚ)
    let remaining : ℚ := ((t.deadline - now : Int) : ℚ)
    if total = 0 then .error "ZeroDivisionError"
    else .ok (decide (remaining / total < 1 / 5))

/-- update_task_status (app/utils.py lines 112-132): returns the
resolved status string and the task with its status field updated.
When completed_at is set it returns completed without writing the
status field. -/
def update_task_status (now : Int) (t : TaskRec) : Except String (String × TaskRec) :=
  if t.completed_at.isSome then .ok ("completed", t)
  else if now > t.deadline then
    .ok ("overdue", { t with status := "overdue" })
  else
    match is_at_risk now t with
    | .error e => .error e
    | .ok true => .ok ("at_risk", { t with status := "at_risk" })
    | .ok false => .ok ("active", { t with status := "active" })

/-! ## Task operations (app/tasks.py routes), restricted to their
effect on the task record.  The routes' early returns (ownership
denied, already / not completed) leave the task unchanged. -/

/-- The complete route (app/tasks.py lines 168-197): sets completed_at
to now, status to completed, and completion_quality to on_time when
completed_at is at or before the deadline, late otherwise. -/
def complete_task (now : Int) (t : TaskRec) : TaskRec :=
  if is_completed t then t
  else
    { t with
        completed_at := some now
        status := "completed"
        completion_quality := some (if now ≤ t.deadline then "on_time" else "late") }

/-- The uncomplete route (app/tasks.py lines 200-223): clears
completed_at and completion_quality, then reruns update_task_status. -/
def uncomplete_task (now : Int) (t : TaskRec) : Except String TaskRec :=
  if !is_completed t then .ok t
  else
    let t2 : TaskRec := { t with completed_at := none, completion_quality := none }
    (update_task_status now t2).map Prod.snd

/-- The delete route (app/tasks.py lines 226-242): a soft delete that
sets status to archived, with no completion guard. -/
def archive_task (t : TaskRec) : TaskRec :=
  { t with status := "archived" }

/-- One task's share of refresh_user_task_statuses / the detail route
(app/utils.py lines 135-151, app/tasks.py line 123): rerun
update_task_status and keep the updated record. -/
def refresh_task (now : Int) (t : TaskRec) : Except String TaskRec :=
  (update_task_status now t).map Prod.snd

/-- The data-model invariant of spec section 3: status is completed
exactly when completed_at is set, and completion_quality is set
exactly when the task is completed. -/
def taskInvariant (t : TaskRec) : Prop :=
  (t.status = "completed" ↔ t.completed_at.isSome = true) ∧
    (t.completion_quality.isSome = true ↔ t.completed_at.isSome = true)

instance (t : TaskRec) : Decidable (taskInvariant t) := by
  unfold taskInvariant
  infer_instance

/-- A task created at epoch 0 with a 100 second window, not completed. -/
def freshTask : TaskRec where
  created_at := 0
  deadline := 100
  completed_at := none
  status := "active"
  completion_quality := none

/-- A task with a zero-duration window: created exactly at its
deadline, not completed. -/
def zeroWindowTask : TaskRec where
  created_at := 0
  deadline := 0
  completed_at := none
  status := "active"
  completion_quality := none

/-- A completed task: completed on time at 50, inside its window. -/
def doneTask : TaskRec where
  created_at := 0
  deadline := 100
  completed_at := some 50
  status := "completed"
  completion_quality := some "on_time"

/-- C2: on a task whose creation instant equals its deadline, the
status resolver evaluated at now = deadline (so now is at or before the
deadline) raises ZeroDivisionError instead of returning at_risk or
overdue: Task.is_at_risk divides by a zero total_time. -/
theorem zero_window_resolver_raises :
    update_task_status 0 zeroWindowTask = .error "ZeroDivisionError" := by
  rfl

lemma update_task_status_of_completed (now : Int) (t : TaskRec)
    (h : t.completed_at.isSome = true) :
    update_task_status now t = .ok ("completed", t) := by
  unfold update_task_status
  simp [h]

lemma update_task_status_ok (now : Int) (t : TaskRec) (s : String) (t2 : TaskRec)
    (hnc : t.completed_at = none)
    (hok : update_task_status now t = .ok (s, t2)) :
    t2.completed_at = none ∧ t2.completion_quality = t.completion_quality ∧
      (t2.status = "overdue" ∨ t2.status = "at_risk" ∨ t2.status = "active") := by
  unfold update_task_status at hok
  simp only [hnc, Option.isSome_none, Bool.false_eq_true, if_false] at hok
  split at hok
  · simp only [Except.ok.injEq, Prod.mk.injEq] at hok
    obtain ⟨hs, ht⟩ := hok
    subst ht
    simp [hnc]
  · split at hok
    · exact absurd hok (by simp)
    · simp only [Except.ok.injEq, Prod.mk.injEq] at hok
      obtain ⟨hs, ht⟩ := hok
      subst ht
      simp [hnc]
    · simp only [Except.ok.injEq, Prod.mk.injEq] at hok
      obtain ⟨hs, ht⟩ := hok
      subst ht
      simp [hnc]

lemma is_at_risk_eq (now : Int) (t : TaskRec) (hnc : t.completed_at = none)
    (hnow : now ≤ t.deadline) (hwin : t.created_at < t.deadline) :
    is_at_risk now t =
      .ok (decide (((t.deadline - now : Int) : ℚ) /
        ((t.deadline - t.created_at : Int) : ℚ) < 1 / 5)) := by
  have htot : ((t.deadline - t.created_at : Int) : ℚ) ≠ 0 :=
    Int.cast_ne_zero.mpr (by omega)
  have hco : is_completed t = false := by
    simp [is_completed, hnc]
  have hov : is_overdue now t = false := by
    unfold is_overdue
    rw [hco]
    simp [not_lt.mpr hnow]
  unfold is_at_risk
  rw [hco, hov]
  show (if ((t.deadline - t.created_at : Int) : ℚ) = 0 then
      (Except.error "ZeroDivisionError" : Except String Bool)
    else .ok (decide (((t.deadline - now : Int) : ℚ) /
      ((t.deadline - t.created_at : Int) : ℚ) < 1 / 5))) = _
  rw [if_neg htot]

lemma update_task_status_cases (now : Int) (t : TaskRec) (hnc : t.completed_at = none)
    (hnow : now ≤ t.deadline) (hwin : t.created_at < t.deadline) :
    update_task_status now t =
      if ((t.deadline - now : Int) : ℚ) / ((t.deadline - t.created_at : Int) : ℚ) < 1 / 5
      then .ok ("at_risk", { t with status := "at_risk" })
      else .ok ("active", { t with status := "active" }) := by
  unfold update_task_status
  rw [is_at_risk_eq now t hnc hnow hwin]
  rw [if_neg (show ¬ t.completed_at.isSome = true by simp [hnc])]
  rw [if_neg (not_lt.mpr hnow)]
  by_cases hP : ((t.deadline - now : Int) : ℚ) / ((t.deadline - t.created_at : Int) : ℚ) < 1 / 5
  · rw [if_pos hP, decide_eq_true hP]
  · rw [if_neg hP, decide_eq_false hP]

/-- C3 counterexample: archiving a completed task breaks the
invariant.  Completing freshTask at 50 and then archiving it yields a
record with completed_at and completion_quality set but status
archived, so status is not completed while completed_at is set. -/
theorem archive_completed_breaks_invariant :
    ¬ taskInvariant (archive_task (complete_task 50 freshTask)) := by
  decide

/-- C3 (amended): the invariant - status is completed iff completed_at
is set, and completion_quality is set iff completed - is preserved by
complete, by uncomplete and by the status refresh whenever they
succeed, and by archive whenever the task being archived is not
completed.  (Archiving a completed task is the one task-layer
operation that breaks it.) -/
theorem task_invariant_preserved (now : Int) (t : TaskRec) (h : taskInvariant t) :
    taskInvariant (complete_task now t) ∧
      (∀ t2, uncomplete_task now t = .ok t2 → taskInvariant t2) ∧
      (∀ t2, refresh_task now t = .ok t2 → taskInvariant t2) ∧
      (is_completed t = false → taskInvariant (archive_task t)) := by
  obtain ⟨hst, hq⟩ := h
  refine ⟨?_, ?_, ?_, ?_⟩
  · unfold complete_task
    split
    · exact ⟨hst, hq⟩
    · constructor <;> simp [taskInvariant]
  · intro t2 h2
    unfold uncomplete_task at h2
    by_cases hc : is_completed t = true
    · simp only [hc, Bool.not_true, Bool.false_eq_true, if_false] at h2
      cases hok : update_task_status now
          { t with completed_at := none, completion_quality := none } with
      | error e =>
          rw [hok] at h2
          simp [Except.map] at h2
      | ok p =>
          obtain ⟨s, t3⟩ := p
          rw [hok] at h2
          simp only [Except.map, Except.ok.injEq] at h2
          obtain ⟨h1, h2q, h3⟩ := update_task_status_ok now _ s t3 rfl hok
          subst h2
          refine ⟨?_, ?_⟩
          · rw [h1]
            rcases h3 with h3 | h3 | h3 <;> simp [h3]
          · rw [h1, h2q]
            simp
    · simp only [Bool.not_eq_true] at hc
      simp only [hc, Bool.not_false, if_true, Except.ok.injEq] at h2
      subst h2
      exact ⟨hst, hq⟩
  · intro t2 h2
    unfold refresh_task at h2
    by_cases hc : t.completed_at.isSome = true
    · rw [update_task_status_of_completed now t hc] at h2
      simp only [Except.map, Except.ok.injEq] at h2
      subst h2
      exact ⟨hst, hq⟩
    · have hnone : t.completed_at = none := Option.not_isSome_iff_eq_none.mp hc
      cases hok : update_task_status now t with
      | error e =>
          rw [hok] at h2
          simp [Except.map] at h2
      | ok p =>
          obtain ⟨s, t3⟩ := p
          rw [hok] at h2
          simp only [Except.map, Except.ok.injEq] at h2
          obtain ⟨h1, h2q, h3⟩ := update_task_status_ok now t s t3 hnone hok
          subst h2
          refine ⟨?_, ?_⟩
          · rw [h1]
            rcases h3 with h3 | h3 | h3 <;> simp [h3]
          · rw [h1, h2q]
            have hqf : t.completion_quality.isSome = false := by
              rw [hnone] at hq
              simpa using hq
            simp [hqf]
  · intro hc
    unfold is_completed at hc
    refine ⟨?_, ?_⟩
    · simp [archive_task, hc]
    · simp only [archive_task]
      rw [hc]
      rw [hc] at hq
      exact hq

/-- C3 witness: the amended preservation theorem applied to the
concrete task freshTask, which satisfies the invariant, at now = 50. -/
theorem task_invariant_preserved_witness :
    taskInvariant freshTask ∧ taskInvariant (complete_task 50 freshTask) :=
  ⟨by decide, (task_invariant_preserved 50 freshTask (by decide)).1⟩

/-- C4 counterexample: the completed status is not terminal for the
task layer.  The uncomplete route takes the completed task doneTask
back to status active with completed_at cleared. -/
theorem uncomplete_returns_completed_to_active :
    is_completed doneTask = true ∧
      uncomplete_task 50 doneTask =
        .ok { created_at := 0, deadline := 100, completed_at := none,
              status := "active", completion_quality := none } := by
  refine ⟨rfl, ?_⟩
  have h := update_task_status_cases 50 ⟨0, 100, none, "completed", none⟩ rfl
    (by decide) (by decide)
  rw [if_neg (by norm_num)] at h
  show (update_task_status 50 ⟨0, 100, none, "completed", none⟩).map Prod.snd = _
  rw [h]
  rfl

/-- C4 (amended): completed is terminal for the status resolver: on a
task with completed_at set, update_task_status returns completed and
leaves the record unchanged, so a status refresh never moves a
completed task to active, at_risk or overdue.  Only the explicit
uncomplete and archive operations change a completed task. -/
theorem resolver_never_uncompletes (now : Int) (t : TaskRec)
    (h : is_completed t = true) :
    update_task_status now t = .ok ("completed", t) ∧ refresh_task now t = .ok t := by
  have h2 := update_task_status_of_completed now t h
  refine ⟨h2, ?_⟩
  unfold refresh_task
  rw [h2]
  rfl

/-- C4 witness: the amended terminality theorem applied to the
concrete completed task doneTask at now = 200 (past its deadline). -/
theorem resolver_never_uncompletes_witness :
    is_completed doneTask = true ∧
      (update_task_status 200 doneTask = .ok ("completed", doneTask) ∧
        refresh_task 200 doneTask = .ok doneTask) :=
  ⟨rfl, resolver_never_uncompletes 200 doneTask rfl⟩

/-- C8: the status resolver uses strict comparisons at both
boundaries.  For a task with completion unset and a positive-length
window, the resolver returns overdue exactly when now is strictly past
the deadline (at now = deadline it does not), and returns at_risk
exactly when now is at or before the deadline and the remaining-time
over total-time ratio is strictly below 1/5 (a ratio of exactly 1/5 is
not at_risk). -/
theorem resolver_strict_boundaries (now : Int) (t : TaskRec)
    (hnc : t.completed_at = none) (hwin : t.created_at < t.deadline) :
    ((update_task_status now t).map Prod.fst = .ok "overdue" ↔ t.deadline < now) ∧
      ((update_task_status now t).map Prod.fst = .ok "at_risk" ↔
        now ≤ t.deadline ∧
          ((t.deadline - now : Int) : ℚ) /
            ((t.deadline - t.created_at : Int) : ℚ) < 1 / 5) := by
  by_cases hod : t.deadline < now
  · have hu : update_task_status now t = .ok ("overdue", { t with status := "overdue" }) := by
      unfold update_task_status
      rw [if_neg (show ¬ t.completed_at.isSome = true by simp [hnc]), if_pos hod]
    rw [hu]
    refine ⟨⟨fun _ => hod, fun _ => rfl⟩, ⟨fun h => ?_, fun h => ?_⟩⟩
    · simp [Except.map] at h
    · exact absurd hod (not_lt.mpr h.1)
  · have hnow : now ≤ t.deadline := not_lt.mp hod
    rw [update_task_status_cases now t hnc hnow hwin]
    by_cases hr : ((t.deadline - now : Int) : ℚ) /
        ((t.deadline - t.created_at : Int) : ℚ) < 1 / 5
    · rw [if_pos hr]
      refine ⟨⟨fun h => ?_, fun h => absurd h hod⟩, ⟨fun _ => ⟨hnow, hr⟩, fun _ => rfl⟩⟩
      simp [Except.map] at h
    · rw [if_neg hr]
      refine ⟨⟨fun h => ?_, fun h => absurd h hod⟩, ⟨fun h => ?_, fun h => absurd h.2 hr⟩⟩
      · simp [Except.map] at h
      · simp [Except.map] at h

/-- C8 witness: the strict-boundary theorem applied to the concrete
task freshTask (window from 0 to 100) evaluated exactly at its
deadline, now = 100: not overdue and not at_risk there. -/
theorem resolver_strict_boundaries_witness :
    ((update_task_status 100 freshTask).map Prod.fst = .ok "overdue" ↔
        freshTask.deadline < 100) ∧
      ((update_task_status 100 freshTask).map Prod.fst = .ok "at_risk" ↔
        100 ≤ freshTask.deadline ∧
          ((freshTask.deadline - 100 : Int) : ℚ) /
            ((freshTask.deadline - freshTask.created_at : Int) : ℚ) < 1 / 5) :=
  resolver_strict_boundaries 100 freshTask rfl (by decide)

/-! ## Deadline calculator (app/utils.py calculate_deadline) -/

/-- Model of the external pytz zone database used on app/utils.py
line 92: pytz.timezone looks the name up and raises
UnknownTimeZoneError when the name is not in the database.  A zone is
modelled as its fixed UTC offset in seconds; a small representative
database (UTC and two fixed-offset zones) suffices, every other name
being rejected exactly as pytz rejects names outside its database. -/
def pytz_timezones : String → Option Int := fun name =>
  if name = "UTC" then some 0
  else if name = "Etc/GMT+5" then some (-18000)
  else if name = "Etc/GMT-5" then some 18000
  else none

/-- The local calendar date (days since epoch) of a UTC instant in a
zone with the given fixed offset: astimezone followed by date() in the
daily branch of calculate_deadline. -/
def localDate (instant off : Int) : Int :=
  (instant + off) / secondsPerDay

/-- The local second of the day of a UTC instant in a zone with the
given fixed offset. -/
def localSecondsOfDay (instant off : Int) : Int :=
  (instant + off) % secondsPerDay

/-- calculate_deadline (app/utils.py lines 94-107) after the timezone
lookup, over a fixed UTC offset.  The daily branch rebuilds 23:59:59
(second 86399) of the local calendar day of created_at and converts it
back to UTC.  The custom branch keeps Python truthiness of
custom_days: both None and 0 fall through to the 1-day default. -/
def calculate_deadline_at (created_at : Int) (window_type : String)
    (custom_days : Option Int) (off : Int) : Int :=
  if window_type = "daily" then
    localDate created_at off * secondsPerDay + 86399 - off
  else if window_type = "weekly" then
    created_at + 7 * secondsPerDay
  else if window_type = "monthly" then
    created_at + 30 * secondsPerDay
  else if window_type = "custom" then
    match custom_days with
    | some d => if d = 0 then created_at + secondsPerDay else created_at + d * secondsPerDay
    | none => created_at + secondsPerDay
  else
    created_at + secondsPerDay

/-- calculate_deadline (app/utils.py lines 79-109): the
pytz.timezone lookup on line 92 runs before any window branch, so an
unknown timezone name raises for every window type; otherwise the
deadline is computed over the resolved zone. -/
def calculate_deadline (tzdb : String → Option Int) (created_at : Int)
    (window_type : String) (custom_days : Option Int) (timezone : String) :
    Except String Int :=
  match tzdb timezone with
  | none => .error "UnknownTimeZoneError"
  | some off => .ok (calculate_deadline_at created_at window_type custom_days off)

/-- C6 counterexample: deadline ≥ creation fails for a negative custom
day count, which Python truthiness lets into the custom branch: a
custom window with custom_days = -1 puts the deadline one day before
the creation instant. -/
theorem negative_custom_deadline_before_creation :
    calculate_deadline_at 0 "custom" (some (-1)) 0 < 0 := by
  decide

/-- C6 (amended): for every creation instant, every window kind, every
fixed UTC offset and every custom day count that is either absent or
nonnegative (in particular the validated range 1..365), the deadline
returned by the calculator is at or after the creation instant. -/
theorem deadline_ge_creation (created_at : Int) (window_type : String)
    (custom_days : Option Int) (off : Int)
    (h : ∀ d, custom_days = some d → 0 ≤ d) :
    created_at ≤ calculate_deadline_at created_at window_type custom_days off := by
  rcases custom_days with _ | d
  · simp only [calculate_deadline_at, localDate, secondsPerDay]
    split
    · omega
    · split
      · omega
      · split
        · omega
        · split
          · omega
          · omega
  · have hd : 0 ≤ d := h d rfl
    simp only [calculate_deadline_at, localDate, secondsPerDay]
    split
    · omega
    · split
      · omega
      · split
        · omega
        · split
          · split
            · omega
            · omega
          · omega

/-- C6 witness: the amended bound applied to the custom window with
day count 5 created at 2024-01-01T00:00:00Z (epoch 1704067200) in a
zone at UTC offset 0. -/
theorem deadline_ge_creation_witness :
    (1704067200 : Int) ≤ calculate_deadline_at 1704067200 "custom" (some 5) 0 :=
  deadline_ge_creation 1704067200 "custom" (some 5) 0
    (fun d hd => by cases hd; decide)

/-- C7: for every creation instant and every fixed UTC offset, the
daily-window deadline falls on the same local calendar date as the
creation instant, at local time 23:59:59 (second 86399 of the local
day), once converted back from UTC to local time. -/
theorem daily_deadline_same_local_date (created_at off : Int) (custom_days : Option Int) :
    localDate (calculate_deadline_at created_at "daily" custom_days off) off =
        localDate created_at off ∧
      localSecondsOfDay (calculate_deadline_at created_at "daily" custom_days off) off =
        86399 := by
  unfold calculate_deadline_at localDate localSecondsOfDay secondsPerDay
  rw [if_pos rfl]
  constructor
  · omega
  · omega

/-- C9 counterexample: calculate_deadline is not total in the timezone
argument: the pytz lookup runs before any window branch, so an
unrecognized timezone name raises UnknownTimeZoneError instead of
returning a deadline, here even for a plain weekly window. -/
theorem unknown_timezone_raises :
    calculate_deadline pytz_timezones 0 "weekly" none "Not/AZone" =
      .error "UnknownTimeZoneError" := by
  rfl

/-- C9 (amended): for every input whose timezone name the zone
database recognizes, calculate_deadline raises no error and always
returns a deadline, with the documented values: weekly is creation + 7
days, monthly creation + 30 days, custom with a nonzero day count d
(in particular d in 1..365) creation + d days, and an unrecognized
window kind or a missing custom count defaults to creation + 1 day. -/
theorem calculate_deadline_total_of_known_zone (tzdb : String → Option Int)
    (created_at : Int) (window_type : String) (custom_days : Option Int)
    (timezone : String) (off : Int) (hdb : tzdb timezone = some off) :
    calculate_deadline tzdb created_at window_type custom_days timezone =
        .ok (calculate_deadline_at created_at window_type custom_days off) ∧
      (window_type = "weekly" →
        calculate_deadline tzdb created_at window_type custom_days timezone =
          .ok (created_at + 7 * secondsPerDay)) ∧
      (window_type = "monthly" →
        calculate_deadline tzdb created_at window_type custom_days timezone =
          .ok (created_at + 30 * secondsPerDay)) ∧
      (∀ d, window_type = "custom" → custom_days = some d → d ≠ 0 →
        calculate_deadline tzdb created_at window_type custom_days timezone =
          .ok (created_at + d * secondsPerDay)) ∧
      (window_type = "custom" → custom_days = none →
        calculate_deadline tzdb created_at window_type custom_days timezone =
          .ok (created_at + secondsPerDay)) ∧
      (window_type ≠ "daily" → window_type ≠ "weekly" → window_type ≠ "monthly" →
        window_type ≠ "custom" →
        calculate_deadline tzdb created_at window_type custom_days timezone =
          .ok (created_at + secondsPerDay)) := by
  have hcd : calculate_deadline tzdb created_at window_type custom_days timezone =
      .ok (calculate_deadline_at created_at window_type custom_days off) := by
    unfold calculate_deadline
    rw [hdb]
  refine ⟨hcd, ?_, ?_, ?_, ?_, ?_⟩
  · intro hw
    subst hw
    rw [hcd]
    simp [calculate_deadline_at]
  · intro hw
    subst hw
    rw [hcd]
    simp [calculate_deadline_at]
  · intro d hw hc hd0
    subst hw
    subst hc
    rw [hcd]
    simp [calculate_deadline_at, hd0]
  · intro hw hc
    subst hw
    subst hc
    rw [hcd]
    simp [calculate_deadline_at]
  · intro h1 h2 h3 h4
    rw [hcd]
    simp [calculate_deadline_at, h1, h2, h3, h4]

/-- C9 witness: the totality theorem applied to the spec scenario:
a custom window with day count 5 created at 2024-01-01T00:00:00Z
(epoch 1704067200) in zone UTC yields epoch 1704499200, which is
2024-01-06T00:00:00Z. -/
theorem calculate_deadline_total_witness :
    pytz_timezones "UTC" = some 0 ∧
      calculate_deadline pytz_timezones 1704067200 "custom" (some 5) "UTC" =
        .ok 1704499200 := by
  refine ⟨rfl, ?_⟩
  have h := (calculate_deadline_total_of_known_zone pytz_timezones 1704067200 "custom"
    (some 5) "UTC" 0 rfl).2.2.2.1 5 rfl rfl (by decide)
  rw [h]
  norm_num [secondsPerDay]

/-! ## Achievements (app/models.py, app/utils.py check_achievements) -/

/-- The fields of the Achievement model read by check_achievements. -/
structure AchievementRec where
  id : Int
  requirement_type : String
  requirement_value : Int
deriving DecidableEq, Repr

/-- The user counters read by the achievement rules; completed_today
is the completed count of get_today_progress. -/
structure UserCounters where
  current_streak : Int
  longest_streak : Int
  total_tasks_completed : Int
  completed_today : Int
deriving DecidableEq, Repr

/-- The rule evaluation for one achievement inside check_achievements
(app/utils.py lines 20-30): earned starts false and only the four
recognized requirement kinds can set it. -/
def achievement_earned (u : UserCounters) (a : AchievementRec) : Bool :=
  if a.requirement_type = "streak" then
    decide (u.current_streak ≥ a.requirement_value)
  else if a.requirement_type = "total_tasks" then
    decide (u.total_tasks_completed ≥ a.requirement_value)
  else if a.requirement_type = "daily_goal" then
    decide (u.completed_today ≥ a.requirement_value)
  else if a.requirement_type = "longest_streak" then
    decide (u.longest_streak ≥ a.requirement_value)
  else
    false

/-- check_achievements (app/utils.py lines 7-41) over explicit state:
the achievements table, the achievement ids the user already earned,
and the user's counters.  It returns the newly awarded achievements:
the query keeps achievements whose id is not among the earned ids
(the not-in filter on line 15), and the loop awards those whose rule
is satisfied. -/
def check_achievements (allA : List AchievementRec) (earnedIds : List Int)
    (u : UserCounters) : List AchievementRec :=
  (allA.filter (fun a => ! decide (a.id ∈ earnedIds))).filter (achievement_earned u)

/-- A column declaration of the relational schema: its name, whether
it is the primary key, and whether the model declares unique=True on
it. -/
structure ColumnSpec where
  name : String
  primary_key : Bool
  unique : Bool
deriving DecidableEq, Repr

/-- The columns of the user_achievements table exactly as the
UserAchievement model declares them (app/models.py lines 230-243):
only the surrogate primary key id, and no unique=True anywhere. -/
def user_achievements_columns : List ColumnSpec :=
  [⟨"id", true, false⟩, ⟨"user_id", false, false⟩,
    ⟨"achievement_id", false, false⟩, ⟨"earned_at", false, false⟩]

/-- Table-level constraints of user_achievements: the UserAchievement
model declares no __table_args__, hence no composite constraint. -/
def user_achievements_table_constraints : List (List String) := []

/-- C5 counterexample: the at-most-once property is not enforced by a
unique constraint on the join table: the UserAchievement model
declares no unique column (user_id and achievement_id included) and no
table-level constraint at all. -/
theorem no_unique_constraint_on_join_table :
    user_achievements_columns.filter (fun c => c.unique) = [] ∧
      user_achievements_table_constraints = [] := by
  decide

/-- C5 (amended): an achievement is earned at most once per user, but
the enforcement is the not-yet-earned filter inside
check_achievements rather than a schema constraint: once the
achievements returned by a call are recorded as earned, an immediate
second call with the same counters awards nothing, so repeated checks
record each (user, achievement) pair at most once. -/
theorem check_achievements_second_call_empty (allA : List AchievementRec)
    (earnedIds : List Int) (u : UserCounters) :
    check_achievements allA
        (earnedIds ++ (check_achievements allA earnedIds u).map (fun a => a.id)) u =
      [] := by
  rw [check_achievements, List.filter_eq_nil_iff]
  intro a ha hg
  rw [List.mem_filter] at ha
  obtain ⟨haAll, hnot⟩ := ha
  have hnot2 : ¬ a.id ∈
      earnedIds ++ (check_achievements allA earnedIds u).map (fun a => a.id) := by
    intro hmem
    simp [hmem] at hnot
  rw [List.mem_append, not_or] at hnot2
  obtain ⟨h1, h2⟩ := hnot2
  apply h2
  refine List.mem_map.mpr ⟨a, ?_, rfl⟩
  rw [check_achievements, List.mem_filter]
  refine ⟨List.mem_filter.mpr ⟨haAll, ?_⟩, hg⟩
  simpa using h1

/-! ## Statistics aggregation (app/utils.py get_completion_rate) -/

/-- Python round(x, 1) over exact rationals: round half to even at
one decimal place (Python 3 banker's rounding), ignoring binary float
representation. -/
def pyRound1 (q : ℚ) : ℚ :=
  let z : Int := ⌊q * 10⌋
  let f : ℚ := q * 10 - (z : ℚ)
  ((if f < 1 / 2 then z
    else if 1 / 2 < f then z + 1
    else if z % 2 = 0 then z
    else z + 1 : Int) : ℚ) / 10

/-- The selection predicate of get_completion_rate (app/utils.py
lines 168-173): the given user's tasks whose deadline lies in the
closed period and whose status is not archived.  A database row is a
pair of the owning user id and the task record. -/
def in_period (user_id period_start period_end : Int) (r : Int × TaskRec) : Bool :=
  decide (r.1 = user_id) && decide (period_start ≤ r.2.deadline) &&
    decide (r.2.deadline ≤ period_end) && decide (r.2.status ≠ "archived")

/-- The result dictionary of get_completion_rate (app/utils.py
lines 176-203). -/
structure RateStats where
  total : Int
  completed : Int
  on_time : Int
  late : Int
  overdue : Int
  completion_rate : ℚ
  on_time_rate : ℚ
deriving DecidableEq, Repr

/-- get_completion_rate (app/utils.py lines 154-203) over an explicit
tasks table.  Mirrors the source: early all-zero return when no task
matches, dynamic overdue evaluation via Task.is_overdue, rates
completed/total*100 and on_time/total*100 with the redundant
total > 0 guard of the source, rounded to one decimal place. -/
def get_completion_rate (now : Int) (tasksTable : List (Int × TaskRec))
    (user_id period_start period_end : Int) : RateStats :=
  let tasks := tasksTable.filter (in_period user_id period_start period_end)
  let total : Int := tasks.length
  if total = 0 then
    ⟨0, 0, 0, 0, 0, 0, 0⟩
  else
    let completed : Int := (tasks.filter (fun r => is_completed r.2)).length
    let on_time : Int :=
      (tasks.filter (fun r => decide (r.2.completion_quality = some "on_time"))).length
    let late : Int :=
      (tasks.filter (fun r => decide (r.2.completion_quality = some "late"))).length
    let overdue : Int := (tasks.filter (fun r => is_overdue now r.2)).length
    let completion_rate : ℚ :=
      if total > 0 then (completed : ℚ) / (total : ℚ) * 100 else 0
    let on_time_rate : ℚ :=
      if total > 0 then (on_time : ℚ) / (total : ℚ) * 100 else 0
    ⟨total, completed, on_time, late, overdue,
      pyRound1 completion_rate, pyRound1 on_time_rate⟩

/-- C10: the completion-rate aggregation over the user's non-archived
tasks with deadline in the closed interval returns all-zero fields
when no task matches (total in particular, with no division-by-zero
error), and otherwise reports the matching count as total, the
completed count, and the two rates completed/total*100 and
on_time/total*100 rounded to one decimal place. -/
theorem get_completion_rate_spec (now : Int) (tasksTable : List (Int × TaskRec))
    (user_id period_start period_end : Int) :
    (tasksTable.filter (in_period user_id period_start period_end) = [] →
      get_completion_rate now tasksTable user_id period_start period_end =
        ⟨0, 0, 0, 0, 0, 0, 0⟩) ∧
      (∀ ts, tasksTable.filter (in_period user_id period_start period_end) = ts →
        ts ≠ [] →
        (get_completion_rate now tasksTable user_id period_start period_end).total =
            ts.length ∧
          (get_completion_rate now tasksTable user_id period_start period_end).completed =
            (ts.filter (fun r => is_completed r.2)).length ∧
          (get_completion_rate now tasksTable user_id period_start
                period_end).completion_rate =
            pyRound1 (((ts.filter (fun r => is_completed r.2)).length : ℚ) /
              (ts.length : ℚ) * 100) ∧
          (get_completion_rate now tasksTable user_id period_start
                period_end).on_time_rate =
            pyRound1 (((ts.filter (fun r =>
                decide (r.2.completion_quality = some "on_time"))).length : ℚ) /
              (ts.length : ℚ) * 100)) := by
  constructor
  · intro h
    simp only [get_completion_rate, h]
    rfl
  · intro ts hts hne
    have hlen : ((ts.length : Int)) ≠ 0 := by
      intro hh
      exact hne (List.length_eq_zero.mp (by exact_mod_cast hh))
    have hpos : (0 : Int) < ts.length := by
      have : 0 ≤ (ts.length : Int) := Int.natCast_nonneg _
      omega
    simp only [get_completion_rate, hts, if_neg hlen, if_pos hpos]
    and_intros <;> trivial

/-- C10 witness: the aggregation theorem applied to the empty tasks
table, where no task matches and every field is 0. -/
theorem get_completion_rate_spec_witness :
    get_completion_rate 0 [] 1 0 100 = ⟨0, 0, 0, 0, 0, 0, 0⟩ :=
  (get_completion_rate_spec 0 [] 1 0 100).1 rfl

end TaskApp
